import Mathlib

/-!
Verification development for the chess-v2 backend.

The definitions below are a shallow embedding of the backend's game service
(`backend/src/services/gameService.ts`) and its socket layer
(`backend/src/socket/gameHandler.ts`, lobby handler, HTTP game controller).

Conventions of the embedding:
* The Prisma game table is a `List Game`; `findUnique({where: id})` is
  `findGame`, and `update({where: id, data})` is `saveGame` (replace the
  record(s) with that id).
* Timestamps (`Date` values) are natural numbers of milliseconds.
* JavaScript `number` fields whose sign can matter (`timeControl` and the
  remaining-time fields, which flow in unvalidated through the socket
  interface) are `Int`; `Math.floor((a-b)/1000)` is `Int.fdiv (a-b) 1000`.
* Nullable fields are `Option`; the JS truthiness test `if (x)` on a
  nullable number is "is `some` and nonzero", on a nullable string it is
  "is `some` and nonempty", on a `Date` it is "is `some`".
* Functions that `throw` return `Except String`; functions that return
  `null` on failure return `Option`.
* Random color assignment (`Math.random() < 0.5`) is passed in as an
  explicit `Bool` oracle argument.
* Socket emits/logging are not modelled; the in-memory maps of the socket
  layer (`gameConnections`, `pendingDrawOffers`, `disconnectTimers`) are
  association lists inside `SocketState`.
-/

namespace ChessV2

/-- Player colors, as the literal union `'white' | 'black'` in the source. -/
inductive Color where
  | white
  | black
deriving DecidableEq, Repr

/-- The opposite color. -/
def Color.other : Color → Color
  | .white => .black
  | .black => .white

/-- Prisma enum `GameStatus`. -/
inductive GameStatus where
  | WAITING
  | IN_PROGRESS
  | COMPLETED
  | CANCELLED
deriving DecidableEq, Repr

/-- Prisma enum for `result`: `'WHITE_WIN' | 'BLACK_WIN' | 'DRAW'`. -/
inductive GameResult where
  | WHITE_WIN
  | BLACK_WIN
  | DRAW
deriving DecidableEq, Repr

/-- The authoritative game record (the Prisma `Game` row, restricted to the
fields the game service reads or writes). -/
structure Game where
  id : String
  status : GameStatus
  timeControl : Option Int
  creatorId : String
  whitePlayerId : Option String
  blackPlayerId : Option String
  winnerId : Option String
  result : Option GameResult
  whiteTimeRemaining : Option Int
  blackTimeRemaining : Option Int
  lastMoveAt : Option Nat
  pgn : Option String
  createdAt : Nat
  startedAt : Option Nat
  endedAt : Option Nat
deriving DecidableEq, Repr

/-- The id of the player seated at color `c` (null while WAITING). -/
def Game.playerOf (g : Game) : Color → Option String
  | .white => g.whitePlayerId
  | .black => g.blackPlayerId

/-- The stored remaining time of color `c`. -/
def Game.timeOf (g : Game) : Color → Option Int
  | .white => g.whiteTimeRemaining
  | .black => g.blackTimeRemaining

/-- The winning result for color `c`. -/
def winFor : Color → GameResult
  | .white => .WHITE_WIN
  | .black => .BLACK_WIN

/-- The database as the list of game rows; `prisma.game.findUnique({where:{id}})`. -/
def findGame (store : List Game) (gameId : String) : Option Game :=
  store.find? (fun g => g.id == gameId)

/-- `prisma.game.update({where:{id}})`: replace the row(s) carrying `g.id`. -/
def saveGame (store : List Game) (g : Game) : List Game :=
  store.map (fun h => if h.id == g.id then g else h)

/-- The `findFirst` filter of `gameService.createGame` / `getUserActiveGame`:
the user has a game that is WAITING or IN_PROGRESS as creator, or
IN_PROGRESS as a seated player. -/
def hasActiveGame (store : List Game) (userId : String) : Bool :=
  store.any (fun g =>
    (g.creatorId == userId && (g.status == .WAITING || g.status == .IN_PROGRESS))
    || (g.whitePlayerId == some userId && g.status == .IN_PROGRESS)
    || (g.blackPlayerId == some userId && g.status == .IN_PROGRESS))

/-- The fresh WAITING row inserted by `createGame` (Prisma defaults: all
other fields null, `createdAt = now()`); `newId` stands for the generated
row id. -/
def newWaitingGame (creatorId : String) (timeControl : Option Int)
    (newId : String) (now : Nat) : Game :=
  { id := newId
    status := .WAITING
    timeControl := timeControl
    creatorId := creatorId
    whitePlayerId := none
    blackPlayerId := none
    winnerId := none
    result := none
    whiteTimeRemaining := none
    blackTimeRemaining := none
    lastMoveAt := none
    pgn := none
    createdAt := now
    startedAt := none
    endedAt := none }

/-- `gameService.createGame`: reject a creator who already has an active
game, otherwise insert a fresh WAITING row. -/
def createGame (store : List Game) (creatorId : String) (timeControl : Option Int)
    (newId : String) (now : Nat) : Except String (List Game × Game) :=
  if hasActiveGame store creatorId then
    .error "You already have an active game"
  else
    .ok (store ++ [newWaitingGame creatorId timeControl newId now],
      newWaitingGame creatorId timeControl newId now)

/-- `gameService.joinGame`. `creatorIsWhite` is the `Math.random() < 0.5`
coin-flip outcome. Note the source sets `whiteTimeRemaining`,
`blackTimeRemaining` (to `game.timeControl`) and `lastMoveAt` (to `now`)
unconditionally, timed or not. -/
def joinGame (store : List Game) (gameId playerId : String) (creatorIsWhite : Bool)
    (now : Nat) : Except String (List Game × Game) :=
  match findGame store gameId with
  | none => .error "Game not found"
  | some game =>
    if game.status ≠ .WAITING then .error "Game is not available"
    else if game.creatorId = playerId then .error "Cannot join your own game"
    else
      let updated : Game :=
        { game with
          status := .IN_PROGRESS
          whitePlayerId := some (if creatorIsWhite then game.creatorId else playerId)
          blackPlayerId := some (if creatorIsWhite then playerId else game.creatorId)
          startedAt := some now
          whiteTimeRemaining := game.timeControl
          blackTimeRemaining := game.timeControl
          lastMoveAt := some now }
      .ok (saveGame store updated, updated)

/-- Return value of `gameService.resignGame`. -/
structure ResignRet where
  result : GameResult
  winnerId : Option String
  resignedColor : Color
deriving DecidableEq, Repr

/-- Return value of `gameService.forfeitGame` and `gameService.handleTimeOut`. -/
structure WinRet where
  result : GameResult
  winnerId : Option String
deriving DecidableEq, Repr

/-- `gameService.resignGame`: null (no-op) when the game is missing, not
IN_PROGRESS, or the user is not a seated player; otherwise complete the game
with the opposite color winning. -/
def resignGame (store : List Game) (gameId resigningUserId : String) (now : Nat) :
    List Game × Option ResignRet :=
  match findGame store gameId with
  | none => (store, none)
  | some game =>
    if game.status ≠ .IN_PROGRESS then (store, none)
    else
      let isWhite := game.whitePlayerId == some resigningUserId
      let isBlack := game.blackPlayerId == some resigningUserId
      if !isWhite && !isBlack then (store, none)
      else
        let result := if isWhite then GameResult.BLACK_WIN else .WHITE_WIN
        let winnerId := if isWhite then game.blackPlayerId else game.whitePlayerId
        let resignedColor := if isWhite then Color.white else .black
        let updated : Game :=
          { game with
            status := .COMPLETED
            result := some result
            winnerId := winnerId
            endedAt := some now }
        (saveGame store updated, some ⟨result, winnerId, resignedColor⟩)

/-- `gameService.forfeitGame`: identical transition to `resignGame`, minus the
`resignedColor` component of the return value. -/
def forfeitGame (store : List Game) (gameId forfeitingUserId : String) (now : Nat) :
    List Game × Option WinRet :=
  match findGame store gameId with
  | none => (store, none)
  | some game =>
    if game.status ≠ .IN_PROGRESS then (store, none)
    else
      let isWhite := game.whitePlayerId == some forfeitingUserId
      let isBlack := game.blackPlayerId == some forfeitingUserId
      if !isWhite && !isBlack then (store, none)
      else
        let result := if isWhite then GameResult.BLACK_WIN else .WHITE_WIN
        let winnerId := if isWhite then game.blackPlayerId else game.whitePlayerId
        let updated : Game :=
          { game with
            status := .COMPLETED
            result := some result
            winnerId := winnerId
            endedAt := some now }
        (saveGame store updated, some ⟨result, winnerId⟩)

/-- `gameService.handleTimeOut`: trusts the caller-supplied `timedOutColor`;
the only guard is that the game exists and is IN_PROGRESS. No check of the
stored remaining times or of `timeControl` is made. -/
def handleTimeOut (store : List Game) (gameId : String) (timedOutColor : Color)
    (now : Nat) : List Game × Option WinRet :=
  match findGame store gameId with
  | none => (store, none)
  | some game =>
    if game.status ≠ .IN_PROGRESS then (store, none)
    else
      let result := if timedOutColor = .white then GameResult.BLACK_WIN else .WHITE_WIN
      let winnerId := if timedOutColor = .white then game.blackPlayerId else game.whitePlayerId
      let updated : Game :=
        { game with
          status := .COMPLETED
          result := some result
          winnerId := winnerId
          endedAt := some now }
      (saveGame store updated, some ⟨result, winnerId⟩)

/-- `gameService.endGameAsDraw`: false (no-op) unless IN_PROGRESS; otherwise
set COMPLETED / DRAW / endedAt (winnerId untouched). -/
def endGameAsDraw (store : List Game) (gameId : String) (now : Nat) :
    List Game × Bool :=
  match findGame store gameId with
  | none => (store, false)
  | some game =>
    if game.status ≠ .IN_PROGRESS then (store, false)
    else
      let updated : Game :=
        { game with
          status := .COMPLETED
          result := some GameResult.DRAW
          endedAt := some now }
      (saveGame store updated, true)

/-- `Math.floor((now.getTime() - last.getTime()) / 1000)` on millisecond
timestamps: floored integer division. -/
def elapsedSecondsOf (now last : Nat) : Int :=
  Int.fdiv ((now : Int) - (last : Int)) 1000

/-- `gameService.updateGameAfterMove`: throws unless IN_PROGRESS; when
`lastMoveAt` is set and `timeControl` is truthy (non-null, nonzero), deducts
the floored elapsed seconds from the moving color's clock (if that clock is
non-null), clamped at 0; stores the new pgn and `lastMoveAt = now`; returns
the two stored clocks. -/
def updateGameAfterMove (store : List Game) (gameId : String) (pgn : String)
    (movingColor : Color) (now : Nat) :
    Except String (List Game × Option Int × Option Int) :=
  match findGame store gameId with
  | none => .error "Game not found or not in progress"
  | some game =>
    if game.status ≠ .IN_PROGRESS then .error "Game not found or not in progress"
    else
      let wt := game.whiteTimeRemaining
      let bt := game.blackTimeRemaining
      let times : Option Int × Option Int :=
        match game.lastMoveAt, game.timeControl with
        | some last, some tc =>
          if tc = 0 then (wt, bt)
          else
            let elapsed := elapsedSecondsOf now last
            match movingColor, wt, bt with
            | .white, some w, _ => (some (max 0 (w - elapsed)), bt)
            | .black, _, some b => (wt, some (max 0 (b - elapsed)))
            | _, _, _ => (wt, bt)
        | _, _ => (wt, bt)
      let updated : Game :=
        { game with
          pgn := some pgn
          whiteTimeRemaining := times.1
          blackTimeRemaining := times.2
          lastMoveAt := some now }
      .ok (saveGame store updated, times)

/-- Number of matches of the global regex `\d+\.` in a character sequence,
as computed by `pgn.match(/\d+\./g).length`. Each (greedy, non-overlapping)
match of `\d+\.` ends at exactly one position where a `'.'` immediately
follows a digit, and every such position terminates exactly one match, so the
match count equals the number of digit-then-dot adjacencies. -/
def countNumDot : List Char → Nat
  | [] => 0
  | [_] => 0
  | a :: b :: rest =>
    (if a.isDigit && b == '.' then 1 else 0) + countNumDot (b :: rest)

/-- JavaScript `String.prototype.trim`: strip whitespace at both ends. -/
def jsTrim (s : List Char) : List Char :=
  ((s.dropWhile Char.isWhitespace).reverse.dropWhile Char.isWhitespace).reverse

/-- JavaScript `String.prototype.split(' ')`: split at every single space,
keeping empty fragments; the empty string yields `[""]`. -/
def jsSplitSpace : List Char → List (List Char)
  | [] => [[]]
  | c :: rest =>
    if c == ' ' then [] :: jsSplitSpace rest
    else
      match jsSplitSpace rest with
      | [] => [[c]]
      | t :: ts => (c :: t) :: ts

/-- `pgn.trim().split(' ').length`. -/
def tokensCount (s : String) : Nat :=
  (jsSplitSpace (jsTrim s.data)).length

/-- The `moveCount` expression of `gameService.getGameTimers`:
`game.pgn ? (game.pgn.match(/\d+\./g) || []).length * 2 -
 (game.pgn.trim().split(' ').length % 2 === 0 ? 0 : 1) : 0`.
`none` and the empty string are falsy and give 0. The value is an `Int`
because the subtraction can go below zero on degenerate inputs. -/
def moveCount (pgn : Option String) : Int :=
  match pgn with
  | none => 0
  | some s =>
    if s.data = [] then 0
    else
      (countNumDot s.data : Int) * 2
        - (if tokensCount s % 2 = 0 then 0 else 1)

/-- `const isWhiteTurn = moveCount % 2 === 0`; JavaScript `%` is the
truncated remainder, `Int.tmod`. -/
def isWhiteTurn (pgn : Option String) : Bool :=
  Int.tmod (moveCount pgn) 2 == 0

/-- Return value of `gameService.getGameTimers`. -/
structure TimersView where
  whiteTimeRemaining : Option Int
  blackTimeRemaining : Option Int
  currentTurn : Color
deriving DecidableEq, Repr

/-- `gameService.getGameTimers`: null unless IN_PROGRESS; when `lastMoveAt`
is set and `timeControl` truthy, derives the side to move from the pgn text
and charges the ongoing elapsed time to that side only. -/
def getGameTimers (store : List Game) (gameId : String) (now : Nat) :
    Option TimersView :=
  match findGame store gameId with
  | none => none
  | some game =>
    if game.status ≠ .IN_PROGRESS then none
    else
      let wt := game.whiteTimeRemaining
      let bt := game.blackTimeRemaining
      match game.lastMoveAt, game.timeControl with
      | some last, some tc =>
        if tc = 0 then some ⟨wt, bt, .white⟩
        else
          let elapsed := elapsedSecondsOf now last
          let whiteTurn := isWhiteTurn game.pgn
          let times : Option Int × Option Int :=
            match whiteTurn, wt, bt with
            | true, some w, _ => (some (max 0 (w - elapsed)), bt)
            | false, _, some b => (wt, some (max 0 (b - elapsed)))
            | _, _, _ => (wt, bt)
          some ⟨times.1, times.2, if whiteTurn then .white else .black⟩
      | _, _ => some ⟨wt, bt, .white⟩

/-! HTTP controller and socket lobby interfaces for game creation. -/

/-- The controller's whitelist: `const validTimeControls = [null, 60, 180, 300]`. -/
def validTimeControls : List (Option Int) := [none, some 60, some 180, some 300]

/-- `gameController.createGame`: the request body's `timeControl` may be
absent (`none`, i.e. `undefined`) or present (`some tc`, where `tc = none`
is JSON `null`). Only a *present* value is validated; then the service is
called with `timeControl ?? null`. -/
def controllerCreateGame (store : List Game) (userId : String)
    (timeControl : Option (Option Int)) (newId : String) (now : Nat) :
    Except String (List Game × Game) :=
  match timeControl with
  | some tc =>
    if validTimeControls.contains tc then createGame store userId tc newId now
    else .error "Invalid time control"
  | none => createGame store userId none newId now

/-- The socket `lobby:createGame` handler: forwards `data.timeControl` to
`gameService.createGame` with no validation of any kind. -/
def lobbyCreateGame (store : List Game) (userId : String) (timeControl : Option Int)
    (newId : String) (now : Nat) : Except String (List Game × Game) :=
  createGame store userId timeControl newId now

/-! The socket game handler's in-memory state and handlers. -/

/-- One entry of the `gameConnections` map: the socket id currently holding
each seat. -/
structure GameConns where
  white : Option String
  black : Option String
deriving DecidableEq, Repr

/-- The socket id holding seat `c`. -/
def GameConns.seat (conns : GameConns) : Color → Option String
  | .white => conns.white
  | .black => conns.black

/-- `Map.prototype.get` on an association list keyed by strings. -/
def mapGet {α : Type} (m : List (String × α)) (k : String) : Option α :=
  (m.find? (fun p => p.1 == k)).map (fun p => p.2)

/-- `Map.prototype.set`: overwrite the binding if the key is present,
append it otherwise. -/
def mapSet {α : Type} (m : List (String × α)) (k : String) (v : α) :
    List (String × α) :=
  if m.any (fun p => p.1 == k) then
    m.map (fun p => if p.1 == k then (k, v) else p)
  else m ++ [(k, v)]

/-- `Map.prototype.delete`. -/
def mapDelete {α : Type} (m : List (String × α)) (k : String) :
    List (String × α) :=
  m.filter (fun p => p.1 != k)

/-- The process-wide mutable state of the socket layer: the durable game
table plus the three in-memory maps of `gameHandler.ts`. Disconnect timers
are tracked by their `(gameId, color)` keys. -/
structure SocketState where
  games : List Game
  pendingDrawOffers : List (String × Color)
  gameConnections : List (String × GameConns)
  disconnectTimers : List (String × Color)
deriving DecidableEq, Repr

/-- The shared `acceptDraw(io, gameId)` helper: end the game as a draw; on
success clear the pending offer and the connections entry and broadcast. -/
def acceptDraw (st : SocketState) (gameId : String) (now : Nat) : SocketState :=
  let r := endGameAsDraw st.games gameId now
  if r.2 then
    { st with
      games := r.1
      pendingDrawOffers := mapDelete st.pendingDrawOffers gameId
      gameConnections := mapDelete st.gameConnections gameId }
  else { st with games := r.1 }

/-- The `game:offerDraw` handler: a pending offer from the *other* color is
accepted; otherwise the offer is recorded (and the opponent notified). -/
def offerDrawHandler (st : SocketState) (gameId : String) (color : Color)
    (now : Nat) : SocketState :=
  match mapGet st.pendingDrawOffers gameId with
  | some existing =>
    if existing ≠ color then acceptDraw st gameId now
    else { st with pendingDrawOffers := mapSet st.pendingDrawOffers gameId color }
  | none => { st with pendingDrawOffers := mapSet st.pendingDrawOffers gameId color }

/-- The `game:acceptDraw` handler: accept only a pending offer from the
other color; otherwise an error is reported to the caller and nothing
changes. -/
def acceptDrawHandler (st : SocketState) (gameId : String) (color : Color)
    (now : Nat) : SocketState :=
  match mapGet st.pendingDrawOffers gameId with
  | some existing =>
    if existing ≠ color then acceptDraw st gameId now else st
  | none => st

/-- The `game:resign` handler: on a successful resignation, clear the
pending draw offer and the connections entry. -/
def resignHandler (st : SocketState) (gameId userId : String) (now : Nat) :
    SocketState :=
  let r := resignGame st.games gameId userId now
  match r.2 with
  | some _ =>
    { st with
      games := r.1
      pendingDrawOffers := mapDelete st.pendingDrawOffers gameId
      gameConnections := mapDelete st.gameConnections gameId }
  | none => { st with games := r.1 }

/-- The `game:timeout` handler: on a successful timeout, clear the
connections entry. The pending-draw-offer map is not touched. -/
def timeoutHandler (st : SocketState) (gameId : String) (timedOutColor : Color)
    (now : Nat) : SocketState :=
  let r := handleTimeOut st.games gameId timedOutColor now
  match r.2 with
  | some _ =>
    { st with
      games := r.1
      gameConnections := mapDelete st.gameConnections gameId }
  | none => { st with games := r.1 }

/-- The body of the disconnect grace-period timer of `handleGameDisconnect`,
run when the timer fires. It removes its own timer key, returns early if the
seat has been reoccupied, and otherwise calls `gameService.forfeitGame`
inside a `try` block; `gameConnections.delete(gameId)` sits inside that
`try` *after* the awaited forfeit call, so it runs whether the forfeit
returned a result or null, but is skipped when the call throws
(`storeThrows = true`, modelling a rejected store promise before any write);
the `catch` only logs. -/
def disconnectTimerFired (st : SocketState) (gameId userId : String) (color : Color)
    (now : Nat) (storeThrows : Bool) : SocketState :=
  let st1 := { st with
    disconnectTimers := st.disconnectTimers.filter (fun k => k ≠ (gameId, color)) }
  let seatOccupied :=
    match mapGet st1.gameConnections gameId with
    | some conns => (conns.seat color).isSome
    | none => false
  if seatOccupied then st1
  else if storeThrows then st1
  else
    let r := forfeitGame st1.games gameId userId now
    { st1 with
      games := r.1
      gameConnections := mapDelete st1.gameConnections gameId }

/-! Specification-side helper notions (used to state claims, not taken from
the source). -/

/-- A game is non-terminal when WAITING or IN_PROGRESS. -/
def nonTerminal (g : Game) : Bool :=
  g.status == .WAITING || g.status == .IN_PROGRESS

/-- The user is the creator or a seated participant of the game. -/
def userInGame (g : Game) (userId : String) : Bool :=
  g.creatorId == userId || g.whitePlayerId == some userId
    || g.blackPlayerId == some userId

/-- All non-terminal games of the store that the user is attached to. -/
def activeGamesOf (store : List Game) (userId : String) : List Game :=
  store.filter (fun g => nonTerminal g && userInGame g userId)

/-- A whitespace-free pgn token of the shape `\d+\.`, i.e. a move number. -/
def isMoveNumberToken (t : List Char) : Bool :=
  match t.reverse with
  | '.' :: digits => digits ≠ [] && digits.all Char.isDigit
  | _ => false

/-- The number of completed half-moves recorded in a pgn string: the
space-separated tokens that are not move-number tokens and not empty. -/
def specHalfMoves (s : String) : Nat :=
  ((jsSplitSpace (jsTrim s.data)).filter
    (fun t => !isMoveNumberToken t && t ≠ [])).length

/-- The color of the user as computed by `resignGame`/`forfeitGame`:
white if seated white, else black if seated black, else none (the
white test takes precedence, as in the source's ternary). -/
def actingColorOf (g : Game) (userId : String) : Option Color :=
  if g.whitePlayerId == some userId then some .white
  else if g.blackPlayerId == some userId then some .black
  else none

/-- A present connections entry with seat `c` vacant, or no entry at all:
the condition under which the fired disconnect timer proceeds to forfeit. -/
def seatVacant (st : SocketState) (gameId : String) (c : Color) : Bool :=
  match mapGet st.gameConnections gameId with
  | some conns => (conns.seat c).isNone
  | none => true

/-- The completed record produced by resign/forfeit/timeout when color
`loser` is the acting (losing) side: COMPLETED, the opposite color's win,
the opposite seat's player as winner, `endedAt = now`. -/
def completedWin (g : Game) (loser : Color) (now : Nat) : Game :=
  { g with
    status := .COMPLETED
    result := some (winFor loser.other)
    winnerId := g.playerOf loser.other
    endedAt := some now }

/-- The record produced by a successful `joinGame` on `g` (the coin flip
`flip` true puts the creator on white). -/
def joinedGame (g : Game) (playerId : String) (flip : Bool) (now : Nat) : Game :=
  { g with
    status := .IN_PROGRESS
    whitePlayerId := some (if flip then g.creatorId else playerId)
    blackPlayerId := some (if flip then playerId else g.creatorId)
    startedAt := some now
    whiteTimeRemaining := g.timeControl
    blackTimeRemaining := g.timeControl
    lastMoveAt := some now }

/-- Whether an `Except` computation succeeded. -/
def exceptOk {ε α : Type} : Except ε α → Bool
  | .ok _ => true
  | .error _ => false

/-- The store component of a creation/join result (empty on error; only
used on calls separately proved successful). -/
def okStore (e : Except String (List Game × Game)) : List Game :=
  match e with
  | .ok p => p.1
  | .error _ => []

/-- The record produced by a successful `updateGameAfterMove`: new pgn,
`lastMoveAt = now`, and only the moving color's clock replaced (by
`newTime`); every other field persists. -/
def afterMoveRecord (g : Game) (pgn : String) (c : Color) (now : Nat)
    (newTime : Int) : Game :=
  match c with
  | .white => { g with pgn := some pgn, whiteTimeRemaining := some newTime,
                       lastMoveAt := some now }
  | .black => { g with pgn := some pgn, blackTimeRemaining := some newTime,
                       lastMoveAt := some now }

/-! Concrete inputs used by counterexamples and witnesses. -/

/-- A timed IN_PROGRESS game between alice (white) and bob (black), 60s
clocks, last move at t = 0. -/
def sampleInProgress : Game :=
  { id := "g1"
    status := .IN_PROGRESS
    timeControl := some 60
    creatorId := "alice"
    whitePlayerId := some "alice"
    blackPlayerId := some "bob"
    winnerId := none
    result := none
    whiteTimeRemaining := some 60
    blackTimeRemaining := some 60
    lastMoveAt := some 0
    pgn := none
    createdAt := 0
    startedAt := some 0
    endedAt := none }

/-- An untimed WAITING game created by alice. -/
def waitingUntimed : Game :=
  { id := "g1"
    status := .WAITING
    timeControl := none
    creatorId := "alice"
    whitePlayerId := none
    blackPlayerId := none
    winnerId := none
    result := none
    whiteTimeRemaining := none
    blackTimeRemaining := none
    lastMoveAt := none
    pgn := none
    createdAt := 0
    startedAt := none
    endedAt := none }

/-- The game row that `lobby:createGame` with `timeControl = 42` produces. -/
def game42 : Game :=
  { id := "g9"
    status := .WAITING
    timeControl := some 42
    creatorId := "u1"
    whitePlayerId := none
    blackPlayerId := none
    winnerId := none
    result := none
    whiteTimeRemaining := none
    blackTimeRemaining := none
    lastMoveAt := none
    pgn := none
    createdAt := 0
    startedAt := none
    endedAt := none }

/-- The timed IN_PROGRESS game whose pgn records the single half-move
`1. e4`, used against the turn derivation of `getGameTimers`. -/
def gameAfterE4 : Game :=
  { sampleInProgress with id := "g7", pgn := some "1. e4" }

/-- C3 trace, step 1: alice creates a game on the empty store. -/
def c3step1 : Except String (List Game × Game) := createGame [] "alice" none "gA" 0

/-- C3 trace, store after step 1. -/
def c3s1 : List Game := okStore c3step1

/-- C3 trace, step 2: bob creates his own game. -/
def c3step2 : Except String (List Game × Game) := createGame c3s1 "bob" none "gB" 1

/-- C3 trace, store after step 2. -/
def c3s2 : List Game := okStore c3step2

/-- C3 trace, step 3: bob, who still has his WAITING game, joins alice's. -/
def c3step3 : Except String (List Game × Game) := joinGame c3s2 "gA" "bob" true 2

/-- C3 trace, store after step 3. -/
def c3s3 : List Game := okStore c3step3

/-- The row created by the first step of the C3 trace (alice's game `gA`). -/
def c3gameA : Game := { waitingUntimed with id := "gA" }

/-- A timed (180s) WAITING game created by alice. -/
def waitingTimed : Game := { waitingUntimed with id := "g2", timeControl := some 180 }

/-- An IN_PROGRESS game with no time control (but stale clock fields), used
to show `handleTimeOut` never consults the timing fields. -/
def untimedInProgress : Game := { sampleInProgress with timeControl := none }

/-- A socket state with a pending white draw offer on the sample game. -/
def offerState : SocketState :=
  { games := [sampleInProgress]
    pendingDrawOffers := [("g1", .white)]
    gameConnections := [("g1", ⟨some "sockW", some "sockB"⟩)]
    disconnectTimers := [] }

/-- A socket state in which white's seat is vacant but the connections
entry for the game is still present, with white's disconnect timer armed. -/
def vacantSeatState : SocketState :=
  { games := [sampleInProgress]
    pendingDrawOffers := []
    gameConnections := [("g1", ⟨none, some "sockB"⟩)]
    disconnectTimers := [("g1", .white)] }

/-! Shared lemmas about the store embedding. -/

theorem findGame_id {store : List Game} {gameId : String} {g : Game}
    (h : findGame store gameId = some g) : g.id = gameId := by
  have := List.find?_some h
  simpa using this

theorem findGame_saveGame {store : List Game} {gameId : String} {g : Game}
    (g' : Game) (h : findGame store gameId = some g) (hid : g'.id = g.id) :
    findGame (saveGame store g') gameId = some g' := by
  have hgid : g.id = gameId := findGame_id h
  have hxeq : g'.id = gameId := by rw [hid, hgid]
  induction store with
  | nil => simp [findGame] at h
  | cons x xs ih =>
    simp only [findGame, saveGame, List.map_cons] at h ⊢
    by_cases hx : x.id = gameId
    · have h1 : (if x.id == g'.id then g' else x) = g' := by
        rw [if_pos (by simp [hx, hxeq])]
      rw [h1, List.find?_cons_of_pos _ (by simp [hxeq])]
    · have h1 : (if x.id == g'.id then g' else x) = x := by
        rw [if_neg (by simp [hxeq]; exact hx)]
      rw [h1, List.find?_cons_of_neg _ (by simp [hx])]
      rw [List.find?_cons_of_neg _ (by simp [hx])] at h
      exact ih h

theorem mapGet_mapDelete {α : Type} (m : List (String × α)) (k : String) :
    mapGet (mapDelete m k) k = none := by
  induction m with
  | nil => rfl
  | cons x xs ih =>
    simp only [mapDelete, List.filter_cons] at ih ⊢
    by_cases hx : x.1 = k
    · simpa [hx] using ih
    · simp only [mapGet] at ih ⊢
      rw [if_pos (by simp [hx]), List.find?_cons_of_neg _ (by simp [hx])]
      exact ih

theorem elapsedSeconds_eq {now lm : Nat} (h : lm ≤ now) :
    elapsedSecondsOf now lm = (((now - lm) / 1000 : Nat) : Int) := by
  unfold elapsedSecondsOf
  have h1 : (now : Int) - (lm : Int) = ((now - lm : Nat) : Int) := by omega
  rw [h1, Int.fdiv_eq_ediv _ (by norm_num)]
  norm_num

theorem completedWin_id (g : Game) (c : Color) (now : Nat) :
    (completedWin g c now).id = g.id := rfl

/-- C1: for every game that is absent or not IN_PROGRESS, `resignGame`,
`forfeitGame` and `handleTimeOut` return null and `endGameAsDraw` returns
false, without mutating the store; when the game is IN_PROGRESS (and the
acting user is seated, for resign/forfeit), each sets status COMPLETED,
result = the non-acting color's win, winnerId = the non-acting seat's
player, and endedAt; hence a second terminal operation after a first
resignation is a no-op. -/
theorem C1_terminal_operations :
    (∀ (store : List Game) (gameId userId : String) (c : Color) (now : Nat),
      (∀ g, findGame store gameId = some g → g.status ≠ .IN_PROGRESS) →
        resignGame store gameId userId now = (store, none) ∧
        forfeitGame store gameId userId now = (store, none) ∧
        handleTimeOut store gameId c now = (store, none) ∧
        endGameAsDraw store gameId now = (store, false)) ∧
    (∀ (store : List Game) (gameId userId : String) (g : Game) (ac : Color) (now : Nat),
      findGame store gameId = some g → g.status = .IN_PROGRESS →
      actingColorOf g userId = some ac →
        resignGame store gameId userId now =
          (saveGame store (completedWin g ac now),
            some ⟨winFor ac.other, g.playerOf ac.other, ac⟩) ∧
        forfeitGame store gameId userId now =
          (saveGame store (completedWin g ac now),
            some ⟨winFor ac.other, g.playerOf ac.other⟩)) ∧
    (∀ (store : List Game) (gameId : String) (g : Game) (c : Color) (now : Nat),
      findGame store gameId = some g → g.status = .IN_PROGRESS →
        handleTimeOut store gameId c now =
          (saveGame store (completedWin g c now),
            some ⟨winFor c.other, g.playerOf c.other⟩)) ∧
    (∀ (store : List Game) (gameId userId u2 : String) (g : Game) (ac c2 : Color)
        (now n2 : Nat),
      findGame store gameId = some g → g.status = .IN_PROGRESS →
      actingColorOf g userId = some ac →
        resignGame (resignGame store gameId userId now).1 gameId u2 n2
          = ((resignGame store gameId userId now).1, none) ∧
        forfeitGame (resignGame store gameId userId now).1 gameId u2 n2
          = ((resignGame store gameId userId now).1, none) ∧
        handleTimeOut (resignGame store gameId userId now).1 gameId c2 n2
          = ((resignGame store gameId userId now).1, none) ∧
        endGameAsDraw (resignGame store gameId userId now).1 gameId n2
          = ((resignGame store gameId userId now).1, false)) := by
  have part1 : ∀ (store : List Game) (gameId userId : String) (c : Color) (now : Nat),
      (∀ g, findGame store gameId = some g → g.status ≠ .IN_PROGRESS) →
        resignGame store gameId userId now = (store, none) ∧
        forfeitGame store gameId userId now = (store, none) ∧
        handleTimeOut store gameId c now = (store, none) ∧
        endGameAsDraw store gameId now = (store, false) := by
    intro store gameId userId c now h
    cases hf : findGame store gameId with
    | none => simp [resignGame, forfeitGame, handleTimeOut, endGameAsDraw, hf]
    | some g =>
      have hs : g.status ≠ .IN_PROGRESS := h g hf
      simp [resignGame, forfeitGame, handleTimeOut, endGameAsDraw, hf, hs]
  have part2 : ∀ (store : List Game) (gameId userId : String) (g : Game) (ac : Color)
      (now : Nat),
      findGame store gameId = some g → g.status = .IN_PROGRESS →
      actingColorOf g userId = some ac →
        resignGame store gameId userId now =
          (saveGame store (completedWin g ac now),
            some ⟨winFor ac.other, g.playerOf ac.other, ac⟩) ∧
        forfeitGame store gameId userId now =
          (saveGame store (completedWin g ac now),
            some ⟨winFor ac.other, g.playerOf ac.other⟩) := by
    intro store gameId userId g ac now hf hst hac
    by_cases hw : g.whitePlayerId = some userId
    · have hac2 : ac = .white := by
        simp [actingColorOf, hw] at hac
        exact hac.symm
      subst hac2
      constructor <;>
        simp [resignGame, forfeitGame, hf, hst, hw, completedWin, winFor,
          Color.other, Game.playerOf]
    · by_cases hb : g.blackPlayerId = some userId
      · have hac2 : ac = .black := by
          simp [actingColorOf, hw, hb] at hac
          exact hac.symm
        subst hac2
        constructor <;>
          simp [resignGame, forfeitGame, hf, hst, hw, hb, completedWin, winFor,
            Color.other, Game.playerOf]
      · simp [actingColorOf, hw, hb] at hac
  have part3 : ∀ (store : List Game) (gameId : String) (g : Game) (c : Color) (now : Nat),
      findGame store gameId = some g → g.status = .IN_PROGRESS →
        handleTimeOut store gameId c now =
          (saveGame store (completedWin g c now),
            some ⟨winFor c.other, g.playerOf c.other⟩) := by
    intro store gameId g c now hf hst
    cases c <;>
      simp [handleTimeOut, hf, hst, completedWin, winFor, Color.other, Game.playerOf]
  refine ⟨part1, part2, part3, ?_⟩
  intro store gameId userId u2 g ac c2 now n2 hf hst hac
  have hres := (part2 store gameId userId g ac now hf hst hac).1
  rw [hres]
  have hf2 : findGame (saveGame store (completedWin g ac now)) gameId
      = some (completedWin g ac now) :=
    findGame_saveGame _ hf (completedWin_id g ac now)
  exact part1 (saveGame store (completedWin g ac now)) gameId u2 c2 n2
    (by
      intro g2 hg2
      rw [hf2] at hg2
      injection hg2 with h2
      rw [← h2]
      simp [completedWin])

/-- Witness for C1 at concrete inputs: an absent game no-ops all four
operations; alice resigning the sample game completes it for black/bob; a
timeout against black completes it for white; a second resignation after
the first is a no-op. -/
theorem C1_terminal_operations_witness :
    (resignGame [] "g1" "u" 0 = ([], none) ∧
     forfeitGame [] "g1" "u" 0 = ([], none) ∧
     handleTimeOut [] "g1" Color.white 0 = ([], none) ∧
     endGameAsDraw [] "g1" 0 = ([], false)) ∧
    (resignGame [sampleInProgress] "g1" "alice" 99 =
        (saveGame [sampleInProgress] (completedWin sampleInProgress Color.white 99),
          some ⟨winFor Color.white.other, sampleInProgress.playerOf Color.white.other,
            Color.white⟩) ∧
     forfeitGame [sampleInProgress] "g1" "alice" 99 =
        (saveGame [sampleInProgress] (completedWin sampleInProgress Color.white 99),
          some ⟨winFor Color.white.other, sampleInProgress.playerOf Color.white.other⟩)) ∧
    (handleTimeOut [sampleInProgress] "g1" Color.black 99 =
        (saveGame [sampleInProgress] (completedWin sampleInProgress Color.black 99),
          some ⟨winFor Color.black.other, sampleInProgress.playerOf Color.black.other⟩)) ∧
    (resignGame (resignGame [sampleInProgress] "g1" "alice" 99).1 "g1" "bob" 100
      = ((resignGame [sampleInProgress] "g1" "alice" 99).1, none)) :=
  ⟨C1_terminal_operations.1 [] "g1" "u" Color.white 0
      (by intro g hg; simp [findGame] at hg),
   C1_terminal_operations.2.1 [sampleInProgress] "g1" "alice" sampleInProgress
      Color.white 99 (by decide) (by decide) (by decide),
   C1_terminal_operations.2.2.1 [sampleInProgress] "g1" sampleInProgress
      Color.black 99 (by decide) (by decide),
   (C1_terminal_operations.2.2.2 [sampleInProgress] "g1" "alice" "bob" sampleInProgress
      Color.white Color.white 99 100 (by decide) (by decide) (by decide)).1⟩

/-- C2: for every IN_PROGRESS timed game (non-null, nonzero `timeControl`,
`lastMoveAt` set, the moving color's clock stored) with `lastMoveAt ≤ now`,
`updateGameAfterMove` deducts the floored elapsed seconds from the moving
color's clock only, clamped at 0, leaves the opponent's clock unchanged,
stores the new pgn and `lastMoveAt = now`, and returns the updated clocks
of both sides. -/
theorem C2_update_after_move (store : List Game) (gameId pgn : String) (c : Color)
    (now : Nat) (g : Game) (tc : Int) (lm : Nat) (w : Int)
    (hf : findGame store gameId = some g)
    (hst : g.status = .IN_PROGRESS)
    (htc : g.timeControl = some tc) (htc0 : tc ≠ 0)
    (hlm : g.lastMoveAt = some lm) (hle : lm ≤ now)
    (hw : g.timeOf c = some w) :
    updateGameAfterMove store gameId pgn c now
      = .ok
        (saveGame store
          (afterMoveRecord g pgn c now (max 0 (w - (((now - lm) / 1000 : Nat) : Int)))),
         ((afterMoveRecord g pgn c now
             (max 0 (w - (((now - lm) / 1000 : Nat) : Int)))).whiteTimeRemaining,
          (afterMoveRecord g pgn c now
             (max 0 (w - (((now - lm) / 1000 : Nat) : Int)))).blackTimeRemaining)) := by
  cases c with
  | white =>
    simp only [Game.timeOf] at hw
    simp [updateGameAfterMove, hf, hst, htc, htc0, hlm, hw, afterMoveRecord,
      elapsedSeconds_eq hle]
  | black =>
    simp only [Game.timeOf] at hw
    simp [updateGameAfterMove, hf, hst, htc, htc0, hlm, hw, afterMoveRecord,
      elapsedSeconds_eq hle]

/-- Witness for C2, the spec's Scenario E: white moves 10 seconds after
`lastMoveAt` with 60 seconds on the clock; white drops to 50, black stays
at 60, pgn and lastMoveAt are updated and both clocks are returned. -/
theorem C2_update_after_move_witness :
    updateGameAfterMove [sampleInProgress] "g1" "1. e4" Color.white 10000
      = .ok
        (saveGame [sampleInProgress]
          (afterMoveRecord sampleInProgress "1. e4" Color.white 10000
            (max 0 (60 - (((10000 - 0) / 1000 : Nat) : Int)))),
         ((afterMoveRecord sampleInProgress "1. e4" Color.white 10000
             (max 0 (60 - (((10000 - 0) / 1000 : Nat) : Int)))).whiteTimeRemaining,
          (afterMoveRecord sampleInProgress "1. e4" Color.white 10000
             (max 0 (60 - (((10000 - 0) / 1000 : Nat) : Int)))).blackTimeRemaining)) :=
  C2_update_after_move [sampleInProgress] "g1" "1. e4" Color.white 10000
    sampleInProgress 60 0 60 (by decide) (by decide) (by decide) (by decide)
    (by decide) (by decide) (by decide)

/-- C3 counterexample: a reachable store in which bob is attached to two
non-terminal games. Bob creates his own game (`gB`, step 2) and then joins
alice's game (`gA`, step 3) — `joinGame` checks only the target game
(WAITING, not self-join) and never the joiner's other games — leaving `gB`
WAITING with bob as creator and `gA` IN_PROGRESS with bob seated. -/
theorem C3_one_active_game_cex :
    exceptOk c3step1 = true ∧ exceptOk c3step2 = true ∧ exceptOk c3step3 = true ∧
    (findGame c3s3 "gB").map Game.status = some .WAITING ∧
    (findGame c3s3 "gA").map Game.status = some .IN_PROGRESS ∧
    (activeGamesOf c3s3 "bob").length = 2 := by decide

/-- C3 amended: the one-active-game invariant is enforced only at creation:
`createGame` rejects a creator whom `hasActiveGame` flags, while `joinGame`
succeeds for any joiner distinct from the creator of a WAITING game, with
no check of the joiner's other games (so a joiner holding a WAITING game of
their own ends up in two non-terminal games). -/
theorem C3_amended_create_guard_only :
    (∀ (store : List Game) (creatorId : String) (tc : Option Int) (newId : String)
        (now : Nat),
      hasActiveGame store creatorId = true →
        createGame store creatorId tc newId now
          = .error "You already have an active game") ∧
    (∀ (store : List Game) (gameId playerId : String) (flip : Bool) (now : Nat)
        (g : Game),
      findGame store gameId = some g → g.status = .WAITING →
      g.creatorId ≠ playerId →
        exceptOk (joinGame store gameId playerId flip now) = true) := by
  constructor
  · intro store creatorId tc newId now h
    simp [createGame, h]
  · intro store gameId playerId flip now g hf hst hne
    simp [joinGame, hf, hst, hne, exceptOk]

/-- Witness for the amended C3: alice cannot create a second game while her
WAITING game exists, and bob's join of `gA` in the C3 trace succeeds even
though bob still owns the WAITING game `gB`. -/
theorem C3_amended_create_guard_only_witness :
    createGame [waitingUntimed] "alice" none "gX" 5
      = .error "You already have an active game" ∧
    exceptOk (joinGame c3s2 "gA" "bob" true 2) = true :=
  ⟨C3_amended_create_guard_only.1 [waitingUntimed] "alice" none "gX" 5 (by decide),
   C3_amended_create_guard_only.2 c3s2 "gA" "bob" true 2 c3gameA
     (by decide) (by decide) (by decide)⟩

/-- C4 counterexample: a timeout on a game with a pending white draw offer
completes the game but leaves the offer in the pending-draw-offer table, so
a terminal game keeps its entry (the `game:timeout` handler never touches
`pendingDrawOffers`). -/
theorem C4_clear_offer_cex :
    mapGet (timeoutHandler offerState "g1" Color.black 99).pendingDrawOffers "g1"
      = some Color.white ∧
    (findGame (timeoutHandler offerState "g1" Color.black 99).games "g1").map
        Game.status = some .COMPLETED := by decide

/-- C4 amended: resignation and draw agreement clear the pending draw offer
for the game, but the timeout handler and the disconnect-forfeit timer
callback leave the pending-draw-offer table entirely unchanged, so those two
termination paths can leave a dangling offer on a terminal game. -/
theorem C4_clear_offer_amended :
    (∀ (st : SocketState) (gameId userId : String) (now : Nat),
      ((resignGame st.games gameId userId now).2).isSome = true →
        mapGet (resignHandler st gameId userId now).pendingDrawOffers gameId = none) ∧
    (∀ (st : SocketState) (gameId : String) (now : Nat),
      (endGameAsDraw st.games gameId now).2 = true →
        mapGet (acceptDraw st gameId now).pendingDrawOffers gameId = none) ∧
    (∀ (st : SocketState) (gameId : String) (c : Color) (now : Nat),
      (timeoutHandler st gameId c now).pendingDrawOffers = st.pendingDrawOffers) ∧
    (∀ (st : SocketState) (gameId userId : String) (c : Color) (now : Nat) (b : Bool),
      (disconnectTimerFired st gameId userId c now b).pendingDrawOffers
        = st.pendingDrawOffers) := by
  refine ⟨?_, ?_, ?_, ?_⟩
  · intro st gameId userId now h
    simp only [resignHandler]
    cases hr : (resignGame st.games gameId userId now).2 with
    | none => rw [hr] at h; simp at h
    | some v => simp [hr, mapGet_mapDelete]
  · intro st gameId now h
    simp [acceptDraw, h, mapGet_mapDelete]
  · intro st gameId c now
    simp only [timeoutHandler]
    cases hr : (handleTimeOut st.games gameId c now).2 <;> simp [hr]
  · intro st gameId userId c now b
    simp only [disconnectTimerFired]
    split
    · rfl
    · split <;> rfl

/-- Witness for the amended C4 on the sample state with a pending white
offer: resignation and draw agreement clear it; timeout and the disconnect
callback leave the offer table unchanged. -/
theorem C4_clear_offer_amended_witness :
    mapGet (resignHandler offerState "g1" "alice" 99).pendingDrawOffers "g1" = none ∧
    mapGet (acceptDraw offerState "g1" 99).pendingDrawOffers "g1" = none ∧
    (timeoutHandler offerState "g1" Color.black 99).pendingDrawOffers
      = offerState.pendingDrawOffers ∧
    (disconnectTimerFired offerState "g1" "alice" Color.white 99 false).pendingDrawOffers
      = offerState.pendingDrawOffers :=
  ⟨C4_clear_offer_amended.1 offerState "g1" "alice" 99 (by decide),
   C4_clear_offer_amended.2.1 offerState "g1" 99 (by decide),
   C4_clear_offer_amended.2.2.1 offerState "g1" Color.black 99,
   C4_clear_offer_amended.2.2.2 offerState "g1" "alice" Color.white 99 false⟩

/-- C5: with a pending draw offer from the other color, `game:offerDraw`
produces exactly the same state as `game:acceptDraw` (both delegate to the
shared `acceptDraw`), and — when the game is IN_PROGRESS — it immediately
ends the game as a draw: the stored record becomes COMPLETED with result
DRAW and endedAt, and the pending offer is cleared. -/
theorem C5_offer_collapse (st : SocketState) (gameId : String)
    (color existing : Color) (now : Nat)
    (hoff : mapGet st.pendingDrawOffers gameId = some existing)
    (hne : existing ≠ color) :
    offerDrawHandler st gameId color now = acceptDrawHandler st gameId color now ∧
    (∀ g, findGame st.games gameId = some g → g.status = .IN_PROGRESS →
      (offerDrawHandler st gameId color now).games
        = saveGame st.games
            { g with status := .COMPLETED, result := some .DRAW, endedAt := some now } ∧
      findGame (offerDrawHandler st gameId color now).games gameId
        = some { g with status := .COMPLETED, result := some .DRAW,
                        endedAt := some now } ∧
      mapGet (offerDrawHandler st gameId color now).pendingDrawOffers gameId
        = none) := by
  have heq : offerDrawHandler st gameId color now = acceptDraw st gameId now := by
    simp [offerDrawHandler, hoff, hne]
  have heq2 : acceptDrawHandler st gameId color now = acceptDraw st gameId now := by
    simp [acceptDrawHandler, hoff, hne]
  refine ⟨heq.trans heq2.symm, ?_⟩
  intro g hf hst
  have hdraw : endGameAsDraw st.games gameId now
      = (saveGame st.games
          { g with status := .COMPLETED, result := some .DRAW, endedAt := some now },
         true) := by
    simp [endGameAsDraw, hf, hst]
  rw [heq]
  refine ⟨by simp [acceptDraw, hdraw], ?_, by simp [acceptDraw, hdraw, mapGet_mapDelete]⟩
  simp only [acceptDraw, hdraw]
  exact findGame_saveGame _ hf rfl

/-- Witness for C5: on the sample state with a pending white offer, black
calling offerDraw collapses to the same draw termination as an explicit
accept. -/
theorem C5_offer_collapse_witness :
    offerDrawHandler offerState "g1" Color.black 99
      = acceptDrawHandler offerState "g1" Color.black 99 ∧
    (offerDrawHandler offerState "g1" Color.black 99).games
      = saveGame offerState.games
          { sampleInProgress with status := .COMPLETED, result := some .DRAW,
                                  endedAt := some 99 } ∧
    findGame (offerDrawHandler offerState "g1" Color.black 99).games "g1"
      = some { sampleInProgress with status := .COMPLETED, result := some .DRAW,
                                     endedAt := some 99 } ∧
    mapGet (offerDrawHandler offerState "g1" Color.black 99).pendingDrawOffers "g1"
      = none := by
  have h := C5_offer_collapse offerState "g1" Color.black Color.white 99
    (by decide) (by decide)
  have h2 := h.2 sampleInProgress (by decide) rfl
  exact ⟨h.1, h2.1, h2.2.1, h2.2.2⟩

/-- C6 counterexample: `timeControl = 42` is outside the enumerated set,
yet the socket interface `lobby:createGame` accepts it and produces a
WAITING record carrying it — no validation error on that interface. -/
theorem C6_create_validation_cex :
    validTimeControls.contains (some 42) = false ∧
    lobbyCreateGame [] "u1" (some 42) "g9" 0 = .ok ([game42], game42) ∧
    game42.status = .WAITING ∧ game42.timeControl = some 42 :=
  ⟨by decide, rfl, rfl, rfl⟩

/-- C6 amended: only the HTTP controller validates `timeControl` against
`{null, 60, 180, 300}` and rejects other values with a validation error and
no record; the socket `lobby:createGame` interface forwards any value
unchecked and (for a creator with no active game) produces a WAITING record
carrying it. -/
theorem C6_create_validation_amended :
    (∀ (store : List Game) (userId : String) (tc : Option Int) (newId : String)
        (now : Nat),
      validTimeControls.contains tc = false →
        controllerCreateGame store userId (some tc) newId now
          = .error "Invalid time control") ∧
    (∀ (store : List Game) (userId : String) (tc : Option Int) (newId : String)
        (now : Nat),
      hasActiveGame store userId = false →
        lobbyCreateGame store userId tc newId now
          = .ok (store ++ [newWaitingGame userId tc newId now],
              newWaitingGame userId tc newId now) ∧
        (newWaitingGame userId tc newId now).status = .WAITING ∧
        (newWaitingGame userId tc newId now).timeControl = tc) := by
  constructor
  · intro store userId tc newId now h
    simp only [controllerCreateGame]
    rw [if_neg (by simpa using h)]
  · intro store userId tc newId now h
    refine ⟨?_, rfl, rfl⟩
    simp [lobbyCreateGame, createGame, h]

/-- Witness for the amended C6: the controller rejects 42; the socket path
accepts 42 on the empty store and stores it in a WAITING record. -/
theorem C6_create_validation_amended_witness :
    controllerCreateGame [] "u2" (some (some 42)) "gZ" 0
      = .error "Invalid time control" ∧
    (lobbyCreateGame [] "u1" (some 42) "g9" 0
        = .ok ([] ++ [newWaitingGame "u1" (some 42) "g9" 0],
            newWaitingGame "u1" (some 42) "g9" 0) ∧
      (newWaitingGame "u1" (some 42) "g9" 0).status = .WAITING ∧
      (newWaitingGame "u1" (some 42) "g9" 0).timeControl = some 42) :=
  ⟨C6_create_validation_amended.1 [] "u2" (some 42) "gZ" 0 (by decide),
   C6_create_validation_amended.2 [] "u1" (some 42) "g9" 0 (by decide)⟩

/-- C7: the turn derivation of `getGameTimers` is wrong. After the single
completed half-move `1. e4` (an odd count, so Black is to move — as the
function's own comment states), the pgn formula yields `moveCount = 2`
(even), so the function reports White-to-move and charges the ongoing
elapsed time (5 seconds here) to White's clock instead of Black's. -/
theorem C7_turn_derivation_bug :
    specHalfMoves "1. e4" = 1 ∧
    specHalfMoves "1. e4" % 2 = 1 ∧
    moveCount (some "1. e4") = 2 ∧
    getGameTimers [gameAfterE4] "g7" 5000
      = some ⟨some 55, some 60, Color.white⟩ := by decide

/-- C8 counterexample: the grace-period timer fires with white's seat
vacant, the forfeit attempt throws, and the `gameConnections` entry for the
game is still present afterwards — the `delete` sits inside the `try` and
is skipped on a thrown forfeit. -/
theorem C8_connection_cleanup_cex :
    seatVacant vacantSeatState "g1" Color.white = true ∧
    (findGame vacantSeatState.games "g1").map Game.status = some .IN_PROGRESS ∧
    mapGet (disconnectTimerFired vacantSeatState "g1" "alice" Color.white 99
        true).gameConnections "g1"
      = some ⟨none, some "sockB"⟩ := by decide

/-- C8 amended: when the timer fires on a vacant seat and the forfeit call
does not throw, the `gameConnections` entry is removed whether the forfeit
succeeds or returns null; a thrown forfeit, however, skips the removal. -/
theorem C8_connection_cleanup_amended (st : SocketState) (gameId userId : String)
    (c : Color) (now : Nat) (hv : seatVacant st gameId c = true) :
    mapGet (disconnectTimerFired st gameId userId c now false).gameConnections gameId
      = none := by
  cases hm : mapGet st.gameConnections gameId with
  | none => simp [disconnectTimerFired, hm, mapGet_mapDelete]
  | some conns =>
    have hseat : (conns.seat c).isSome = false := by
      cases hs : conns.seat c with
      | none => rfl
      | some x =>
        simp only [seatVacant, hm, hs] at hv
        simp at hv
    simp [disconnectTimerFired, hm, hseat, mapGet_mapDelete]

/-- Witness for the amended C8: on the sample vacant-seat state with a
non-throwing store, the connections entry is gone after the timer fires. -/
theorem C8_connection_cleanup_amended_witness :
    mapGet (disconnectTimerFired vacantSeatState "g1" "alice" Color.white 99
        false).gameConnections "g1" = none :=
  C8_connection_cleanup_amended vacantSeatState "g1" "alice" Color.white 99 (by decide)

/-- C9 counterexample: joining an *untimed* WAITING game still sets
`lastMoveAt = now` (and writes the null time control into both clock
fields), so the claim's "exactly when the game is timed" fails: here the
game is untimed yet `lastMoveAt` is stamped. -/
theorem C9_join_cex :
    waitingUntimed.timeControl = none ∧
    joinGame [waitingUntimed] "g1" "bob" true 5
      = .ok ([joinedGame waitingUntimed "bob" true 5],
          joinedGame waitingUntimed "bob" true 5) ∧
    (joinedGame waitingUntimed "bob" true 5).timeControl = none ∧
    (joinedGame waitingUntimed "bob" true 5).lastMoveAt = some 5 :=
  ⟨rfl, rfl, rfl, rfl⟩

/-- C9 amended: for a WAITING game and a joiner distinct from the creator,
`joinGame` updates the record to `joinedGame`: IN_PROGRESS, `startedAt`,
colors assigned by the coin flip, both remaining-time fields set to
`timeControl` (hence a number exactly when timed), and `lastMoveAt = now`
always — even for untimed games. The creator receives white in exactly one
of the two equiprobable flip outcomes (probability 1/2, both assignments
reachable). It errors when the game is absent, not WAITING, or the joiner
is the creator. -/
theorem C9_join_amended :
    (∀ (store : List Game) (gameId playerId : String) (flip : Bool) (now : Nat)
        (g : Game),
      findGame store gameId = some g → g.status = .WAITING →
      g.creatorId ≠ playerId →
        joinGame store gameId playerId flip now
          = .ok (saveGame store (joinedGame g playerId flip now),
              joinedGame g playerId flip now)) ∧
    (∀ (g : Game) (playerId : String) (now : Nat), g.creatorId ≠ playerId →
      (joinedGame g playerId true now).whitePlayerId = some g.creatorId ∧
      (joinedGame g playerId false now).blackPlayerId = some g.creatorId ∧
      (List.filter
          (fun f => (joinedGame g playerId f now).whitePlayerId == some g.creatorId)
          [true, false]).length = 1) ∧
    (∀ (store : List Game) (gameId playerId : String) (flip : Bool) (now : Nat),
      findGame store gameId = none →
        joinGame store gameId playerId flip now = .error "Game not found") ∧
    (∀ (store : List Game) (gameId playerId : String) (flip : Bool) (now : Nat)
        (g : Game),
      findGame store gameId = some g → g.status ≠ .WAITING →
        joinGame store gameId playerId flip now = .error "Game is not available") ∧
    (∀ (store : List Game) (gameId playerId : String) (flip : Bool) (now : Nat)
        (g : Game),
      findGame store gameId = some g → g.status = .WAITING →
      g.creatorId = playerId →
        joinGame store gameId playerId flip now
          = .error "Cannot join your own game") := by
  refine ⟨?_, ?_, ?_, ?_, ?_⟩
  · intro store gameId playerId flip now g hf hst hne
    simp [joinGame, hf, hst, hne, joinedGame]
  · intro g playerId now hne
    have hpc : playerId ≠ g.creatorId := fun h => hne h.symm
    refine ⟨rfl, rfl, ?_⟩
    simp [joinedGame, hpc]
  · intro store gameId playerId flip now hf
    simp [joinGame, hf]
  · intro store gameId playerId flip now g hf hst
    simp [joinGame, hf, hst]
  · intro store gameId playerId flip now g hf hst heq
    simp [joinGame, hf, hst, heq]

/-- Witness for the amended C9: bob joins alice's timed WAITING game with
flip = true; the error cases fire on an empty store, an IN_PROGRESS game,
and a self-join. -/
theorem C9_join_amended_witness :
    joinGame [waitingTimed] "g2" "bob" true 5
      = .ok (saveGame [waitingTimed] (joinedGame waitingTimed "bob" true 5),
          joinedGame waitingTimed "bob" true 5) ∧
    ((joinedGame waitingTimed "bob" true 5).whitePlayerId
        = some waitingTimed.creatorId ∧
      (joinedGame waitingTimed "bob" false 5).blackPlayerId
        = some waitingTimed.creatorId ∧
      (List.filter
          (fun f => (joinedGame waitingTimed "bob" f 5).whitePlayerId
            == some waitingTimed.creatorId)
          [true, false]).length = 1) ∧
    joinGame [] "gX" "bob" true 5 = .error "Game not found" ∧
    joinGame [sampleInProgress] "g1" "bob" true 5 = .error "Game is not available" ∧
    joinGame [waitingTimed] "g2" "alice" true 5 = .error "Cannot join your own game" :=
  ⟨C9_join_amended.1 [waitingTimed] "g2" "bob" true 5 waitingTimed
      (by decide) rfl (by decide),
   C9_join_amended.2.1 waitingTimed "bob" 5 (by decide),
   C9_join_amended.2.2.1 [] "gX" "bob" true 5 rfl,
   C9_join_amended.2.2.2.1 [sampleInProgress] "g1" "bob" true 5 sampleInProgress
      (by decide) (by decide),
   C9_join_amended.2.2.2.2 [waitingTimed] "g2" "alice" true 5 waitingTimed
      (by decide) rfl rfl⟩

/-- C10: `handleTimeOut` on any IN_PROGRESS game completes it with the
opposite color winning, based solely on the caller-supplied color: the
record `g` is arbitrary, so no condition on `timeControl` or on either
stored remaining time is involved — an untimed game, or one whose reported
side still has time, is ended all the same. -/
theorem C10_timeout_trusts_caller (store : List Game) (gameId : String) (g : Game)
    (c : Color) (now : Nat)
    (hf : findGame store gameId = some g) (hst : g.status = .IN_PROGRESS) :
    handleTimeOut store gameId c now
      = (saveGame store (completedWin g c now),
         some ⟨winFor c.other, g.playerOf c.other⟩) := by
  cases c <;>
    simp [handleTimeOut, hf, hst, completedWin, winFor, Color.other, Game.playerOf]

/-- Witness for C10: an untimed IN_PROGRESS game (with 60 still on both
stale clock fields) is completed for black by a white-timeout report. -/
theorem C10_timeout_trusts_caller_witness :
    untimedInProgress.timeControl = none ∧
    untimedInProgress.whiteTimeRemaining = some 60 ∧
    handleTimeOut [untimedInProgress] "g1" Color.white 42
      = (saveGame [untimedInProgress] (completedWin untimedInProgress Color.white 42),
         some ⟨winFor Color.white.other, untimedInProgress.playerOf Color.white.other⟩) :=
  ⟨rfl, rfl,
   C10_timeout_trusts_caller [untimedInProgress] "g1" untimedInProgress Color.white 42
     (by decide) rfl⟩

end ChessV2
